import Mathlib

/-!
Shallow embedding of the fuel-theft-monitor detection engine
(src/js/fuel-monitor.js, src/js/main.js) and proofs of the spec claims.

Conventions of the embedding:
* JS timestamps (`Date` values / `getTime()`) are modelled as `Int`
  milliseconds since the epoch.
* JS numbers used for fuel levels, drop percentages and fractional
  durations are modelled as `ℚ` (the arithmetic the code performs on them
  is exact: sums, differences, division by 60000, comparisons).
* The Geotab API is modelled as explicit oracle arguments: each external
  call site takes the value (or failure) the call would have produced.
* `Date.now()` / `new Date()` at a call site is modelled as an explicit
  `now : Int` argument.
-/

/-- A fuel-level reading as stored in a vehicle's history window
(`{timestamp, level}` objects built in `processFuelData` /
`analyzeVehicleHistory`). -/
structure Reading where
  timestamp : Int
  level : ℚ
deriving DecidableEq, Repr

/-- The engine configuration object (`config` in fuel-monitor.js). -/
structure Config where
  dropThreshold : Int
  timeWindowMinutes : Int
  pollIntervalSeconds : Int
deriving DecidableEq, Repr

/-- The default configuration from fuel-monitor.js lines 20-24. -/
def defaultConfig : Config :=
  { dropThreshold := 10, timeWindowMinutes := 30, pollIntervalSeconds := 30 }

/-- The detection result object returned by `detectSuspiciousDrop`
(lines 253-259). -/
structure Detection where
  dropPercent : ℚ
  previousLevel : ℚ
  currentLevel : ℚ
  durationMinutes : ℚ
  previousTimestamp : Int
deriving DecidableEq, Repr

/-- One step of the `reduce` in `detectSuspiciousDrop` line 245:
`(max, r) => r.level > max.level ? r : max`. -/
def maxStep (mx r : Reading) : Reading :=
  if r.level > mx.level then r else mx

/-- The readings of the window that `detectSuspiciousDrop` considers
"recent" for a candidate: those `r` with
`windowStart ≤ r.timestamp < candidate.timestamp` where
`windowStart = candidate.timestamp − timeWindowMinutes` (line 240's
`history.filter`). -/
def recentOf (cfg : Config) (history : List Reading) (currentPoint : Reading) : List Reading :=
  history.filter fun h =>
    decide (h.timestamp ≥ currentPoint.timestamp - cfg.timeWindowMinutes * 60 * 1000)
      && decide (h.timestamp < currentPoint.timestamp)

/-- The tail of `detectSuspiciousDrop` once the peak reading is known
(lines 248-262): compute drop and duration from the peak, return a
detection iff the drop meets the threshold within the window. -/
def detectCore (cfg : Config) (currentPoint maxReading : Reading) : Option Detection :=
  let dropPercent := maxReading.level - currentPoint.level
  let durationMinutes := ((currentPoint.timestamp - maxReading.timestamp : Int) : ℚ) / (1000 * 60)
  if dropPercent ≥ (cfg.dropThreshold : ℚ) ∧ durationMinutes ≤ (cfg.timeWindowMinutes : ℚ) then
    some { dropPercent := dropPercent
           previousLevel := maxReading.level
           currentLevel := currentPoint.level
           durationMinutes := durationMinutes
           previousTimestamp := maxReading.timestamp }
  else none

/-- Embedding of `detectSuspiciousDrop(history, currentPoint)`
(fuel-monitor.js lines 233-263).  The JS `reduce` with initial value
`recentReadings[0]` folds over the whole of `recentReadings`, including
its head. -/
def detectSuspiciousDrop (cfg : Config) (history : List Reading)
    (currentPoint : Reading) : Option Detection :=
  if history.isEmpty then none
  else
    match recentOf cfg history currentPoint with
    | [] => none
    | r0 :: rest => detectCore cfg currentPoint ((r0 :: rest).foldl maxStep r0)

/-- Modelled from the spec (§4.2 DropDetector): the running-max
left-to-right scan, "replacing the running max only on strict `>`, so the
first-seen maximal reading wins".  Used as the reference algorithm the
code is compared against in claim C1. -/
def firstSeenPeak (best : Reading) : List Reading → Reading
  | [] => best
  | r :: rs => if r.level > best.level then firstSeenPeak r rs else firstSeenPeak best rs

/-- Modelled from the spec (§4.2 DropDetector): the reference drop-detection
algorithm stated in the spec's words: `recent` is the sub-window
`windowStart ≤ ts < candidate.ts`; if `recent` is empty return none;
`peak` is the first-seen strict maximum of `recent`; return a DropEvent
iff `dropPercent ≥ dropThresholdPercent` and
`durationMinutes ≤ timeWindowMinutes`. -/
def detectSpec (cfg : Config) (window : List Reading)
    (candidate : Reading) : Option Detection :=
  match recentOf cfg window candidate with
  | [] => none
  | r0 :: rest => detectCore cfg candidate (firstSeenPeak r0 rest)

/-- Embedding of `determineSeverity(dropPercent, durationMinutes)`
(fuel-monitor.js lines 325-338). -/
def determineSeverity (dropPercent durationMinutes : ℚ) : String :=
  if dropPercent > 25 ∧ durationMinutes < 10 then "critical"
  else if dropPercent > 15 ∧ durationMinutes < 20 then "high"
  else "medium"

/-- C9: the severity classifier evaluates its rules in order with first
match winning: drop > 25 ∧ duration < 10 → critical; otherwise
drop > 15 ∧ duration < 20 → high; otherwise medium; there is no tier
below medium, and a 30%/5-minute drop classifies as critical. -/
theorem claim_C9 :
    (∀ d t : ℚ, d > 25 ∧ t < 10 → determineSeverity d t = "critical")
    ∧ (∀ d t : ℚ, ¬(d > 25 ∧ t < 10) → d > 15 ∧ t < 20 → determineSeverity d t = "high")
    ∧ (∀ d t : ℚ, ¬(d > 25 ∧ t < 10) → ¬(d > 15 ∧ t < 20) → determineSeverity d t = "medium")
    ∧ (∀ d t : ℚ, determineSeverity d t = "critical" ∨ determineSeverity d t = "high"
        ∨ determineSeverity d t = "medium")
    ∧ determineSeverity 30 5 = "critical" := by
  refine ⟨?_, ?_, ?_, ?_, ?_⟩
  · intro d t h; simp [determineSeverity, h]
  · intro d t h1 h2; simp [determineSeverity, h1, h2]
  · intro d t h1 h2; simp [determineSeverity, h1, h2]
  · intro d t
    by_cases h1 : d > 25 ∧ t < 10
    · left; simp [determineSeverity, h1]
    · by_cases h2 : d > 15 ∧ t < 20
      · right; left; simp [determineSeverity, h1, h2]
      · right; right; simp [determineSeverity, h1, h2]
  · decide

/-- Witness for C9 at concrete inputs. -/
theorem claim_C9_witness :
    determineSeverity 30 5 = "critical" ∧ determineSeverity 20 15 = "high"
    ∧ determineSeverity 12 25 = "medium" :=
  ⟨claim_C9.2.2.2.2,
   claim_C9.2.1 20 15 (by norm_num) (by norm_num),
   claim_C9.2.2.1 12 25 (by norm_num) (by norm_num)⟩

lemma maxStep_self (a : Reading) : maxStep a a = a := by
  simp [maxStep]

lemma firstSeenPeak_eq_foldl (l : List Reading) : ∀ a : Reading,
    firstSeenPeak a l = l.foldl maxStep a := by
  induction l with
  | nil => intro a; rfl
  | cons x xs ih =>
    intro a
    by_cases h : x.level > a.level
    · simp [firstSeenPeak, List.foldl, maxStep, h, ih]
    · simp [firstSeenPeak, List.foldl, maxStep, h, ih]

/-- The running-max fold picks the first-seen maximum: the scanned list
splits as `pre ++ result :: post` where everything before the result is
strictly below it and everything after is at most it. -/
lemma foldl_maxStep_firstSeen (l : List Reading) : ∀ a : Reading,
    ∃ pre post, a :: l = pre ++ (l.foldl maxStep a) :: post
      ∧ (∀ r ∈ pre, r.level < (l.foldl maxStep a).level)
      ∧ (∀ r ∈ post, r.level ≤ (l.foldl maxStep a).level) := by
  induction l with
  | nil => intro a; exact ⟨[], [], by simp⟩
  | cons x xs ih =>
    intro a
    by_cases hx : x.level > a.level
    · have hstep : List.foldl maxStep a (x :: xs) = List.foldl maxStep x xs := by
        simp [List.foldl, maxStep, hx]
      obtain ⟨pre, post, hsplit, hpre, hpost⟩ := ih x
      have hxle : x.level ≤ (xs.foldl maxStep x).level := by
        have hxmem : x ∈ x :: xs := List.mem_cons_self x xs
        rw [hsplit] at hxmem
        rcases List.mem_append.mp hxmem with h1 | h2
        · exact le_of_lt (hpre x h1)
        · rcases List.mem_cons.mp h2 with h3 | h4
          · exact le_of_eq (congrArg Reading.level h3)
          · exact hpost x h4
      rw [hstep]
      refine ⟨a :: pre, post, ?_, ?_, hpost⟩
      · rw [List.cons_append, ← hsplit]
      · intro r hr
        rcases List.mem_cons.mp hr with h1 | h2
        · rw [h1]; exact lt_of_lt_of_le hx hxle
        · exact hpre r h2
    · have hstep : List.foldl maxStep a (x :: xs) = List.foldl maxStep a xs := by
        simp [List.foldl, maxStep, hx]
      obtain ⟨pre, post, hsplit, hpre, hpost⟩ := ih a
      rw [hstep]
      cases pre with
      | nil =>
        rw [List.nil_append] at hsplit
        injection hsplit with ha hxs
        refine ⟨[], x :: xs, ?_, ?_, ?_⟩
        · rw [List.nil_append, ← ha]
        · intro r hr; simp at hr
        · intro r hr
          rcases List.mem_cons.mp hr with h1 | h2
          · rw [h1, ← ha]; exact le_of_not_lt hx
          · exact hpost r (hxs ▸ h2)
      | cons p pre₂ =>
        rw [List.cons_append] at hsplit
        injection hsplit with hpa htl
        have halev : a.level < (xs.foldl maxStep a).level := by
          have hp := hpre p (List.mem_cons_self p pre₂)
          rwa [← hpa] at hp
        refine ⟨a :: x :: pre₂, post, ?_, ?_, hpost⟩
        · rw [List.cons_append, List.cons_append, ← htl]
        · intro r hr
          rcases List.mem_cons.mp hr with h1 | h2
          · rw [h1]; exact halev
          · rcases List.mem_cons.mp h2 with h3 | h4
            · rw [h3]; exact lt_of_le_of_lt (le_of_not_lt hx) halev
            · exact hpre r (List.mem_cons_of_mem p h4)

lemma detect_eq_detectSpec (cfg : Config) (history : List Reading)
    (currentPoint : Reading) :
    detectSuspiciousDrop cfg history currentPoint = detectSpec cfg history currentPoint := by
  unfold detectSuspiciousDrop detectSpec
  cases history with
  | nil => simp [recentOf]
  | cons h hs =>
    simp only [List.isEmpty_cons, Bool.false_eq_true, if_false]
    cases hrec : recentOf cfg (h :: hs) currentPoint with
    | nil => rfl
    | cons r0 rest =>
      have hfold : (r0 :: rest).foldl maxStep r0 = firstSeenPeak r0 rest := by
        rw [firstSeenPeak_eq_foldl]
        simp [List.foldl, maxStep_self]
      simp only [hfold]

/-- The tie-break example history from the spec: two 70% readings at t0
and t0+5min. -/
def exHistory : List Reading := [⟨0, 70⟩, ⟨300000, 70⟩]

/-- The tie-break example candidate: 55% at t0+12min. -/
def exCurrent : Reading := ⟨720000, 55⟩

/-- The detection the tie-break example must produce: peak resolved to the
t0 reading, so duration 12 minutes, drop 15%. -/
def exDetection : Detection := ⟨15, 70, 55, 12, 0⟩

/-- C1: `detectSuspiciousDrop` equals the spec's reference algorithm;
whenever it fires, its detection is computed from the first-seen strict
maximum of the recent sub-window (everything before the peak is strictly
below it, everything after at most it, so among equal maxima the earliest
wins) and satisfies both threshold conditions; an empty recent sub-window
yields none; and for a window with two 70% readings at t0 and t0+5min and
a 55% candidate at t0+12min, the peak is the t0 reading, giving duration
12 minutes (not 7) and drop 15%. -/
theorem claim_C1 :
    (∀ cfg history currentPoint,
      detectSuspiciousDrop cfg history currentPoint = detectSpec cfg history currentPoint)
    ∧ (∀ cfg history currentPoint d,
        detectSuspiciousDrop cfg history currentPoint = some d →
        ∃ pre peak post,
          recentOf cfg history currentPoint = pre ++ peak :: post
          ∧ (∀ r ∈ pre, r.level < peak.level)
          ∧ (∀ r ∈ post, r.level ≤ peak.level)
          ∧ d.dropPercent = peak.level - currentPoint.level
          ∧ d.durationMinutes = ((currentPoint.timestamp - peak.timestamp : Int) : ℚ) / (1000 * 60)
          ∧ d.previousTimestamp = peak.timestamp
          ∧ d.dropPercent ≥ (cfg.dropThreshold : ℚ)
          ∧ d.durationMinutes ≤ (cfg.timeWindowMinutes : ℚ))
    ∧ (∀ cfg history currentPoint, recentOf cfg history currentPoint = [] →
        detectSuspiciousDrop cfg history currentPoint = none)
    ∧ detectSuspiciousDrop defaultConfig exHistory exCurrent = some exDetection := by
  refine ⟨detect_eq_detectSpec, ?_, ?_, ?_⟩
  · intro cfg history currentPoint d hdet
    unfold detectSuspiciousDrop at hdet
    cases history with
    | nil => simp at hdet
    | cons h hs =>
      simp only [List.isEmpty_cons, Bool.false_eq_true, if_false] at hdet
      cases hrec : recentOf cfg (h :: hs) currentPoint with
      | nil => rw [hrec] at hdet; simp at hdet
      | cons r0 rest =>
        rw [hrec] at hdet
        simp only at hdet
        have hfold : List.foldl maxStep r0 (r0 :: rest) = List.foldl maxStep r0 rest := by
          simp [List.foldl, maxStep_self]
        rw [hfold] at hdet
        obtain ⟨pre, post, hsplit, hpre, hpost⟩ := foldl_maxStep_firstSeen rest r0
        refine ⟨pre, rest.foldl maxStep r0, post, hsplit, hpre, hpost, ?_⟩
        simp only [detectCore] at hdet
        split at hdet
        · rename_i hcond
          injection hdet with hd
          subst hd
          exact ⟨rfl, rfl, rfl, hcond.1, hcond.2⟩
        · simp at hdet
  · intro cfg history currentPoint hre
    unfold detectSuspiciousDrop
    cases history with
    | nil => rfl
    | cons h hs => simp [hre]
  · norm_num [detectSuspiciousDrop, recentOf, detectCore, maxStep, defaultConfig,
      exHistory, exCurrent, exDetection]

/-- Witness for C1: the equality and the peak characterization applied at
the concrete tie-break example. -/
theorem claim_C1_witness :
    detectSuspiciousDrop defaultConfig exHistory exCurrent
      = detectSpec defaultConfig exHistory exCurrent
    ∧ ∃ pre peak post,
        recentOf defaultConfig exHistory exCurrent = pre ++ peak :: post
        ∧ (∀ r ∈ pre, r.level < peak.level)
        ∧ (∀ r ∈ post, r.level ≤ peak.level)
        ∧ exDetection.dropPercent = peak.level - exCurrent.level
        ∧ exDetection.durationMinutes
            = ((exCurrent.timestamp - peak.timestamp : Int) : ℚ) / (1000 * 60)
        ∧ exDetection.previousTimestamp = peak.timestamp
        ∧ exDetection.dropPercent ≥ (defaultConfig.dropThreshold : ℚ)
        ∧ exDetection.durationMinutes ≤ (defaultConfig.timeWindowMinutes : ℚ) :=
  ⟨claim_C1.1 defaultConfig exHistory exCurrent,
   claim_C1.2.1 defaultConfig exHistory exCurrent exDetection claim_C1.2.2.2⟩

/-- Embedding of the time-based eviction loop of `pruneHistory`
(fuel-monitor.js lines 345-349): shift entries while the head is older
than two hours before `now` (`Date.now()` passed explicitly).  Like the
JS `while`, it stops at the first head that is not old. -/
def pruneOld (now : Int) : List Reading → List Reading
  | [] => []
  | r :: rs => if r.timestamp < now - 2 * 60 * 60 * 1000 then pruneOld now rs else r :: rs

/-- Embedding of the count-cap loop of `pruneHistory` (lines 351-354):
shift from the front while more than 500 entries remain, i.e. drop
`length − 500` from the front. -/
def capDrop (l : List Reading) : List Reading := l.drop (l.length - 500)

/-- Embedding of `pruneHistory(history)` (lines 344-355): time-based
eviction first, then the 500-entry cap. -/
def pruneHistory (now : Int) (history : List Reading) : List Reading :=
  capDrop (pruneOld now history)

/-- The append-and-prune step of `analyzeVehicleFuelData` (lines 221-224):
`history.push(currentPoint); pruneHistory(history)`. -/
def appendAndPrune (now : Int) (history : List Reading) (r : Reading) : List Reading :=
  pruneHistory now (history ++ [r])

lemma capDrop_of_le {l : List Reading} (h : l.length ≤ 500) : capDrop l = l := by
  unfold capDrop
  have h0 : l.length - 500 = 0 := by omega
  rw [h0, List.drop_zero]

lemma capDrop_length (l : List Reading) : (capDrop l).length ≤ 500 := by
  unfold capDrop
  rw [List.length_drop]
  omega

lemma capDrop_suffix (l : List Reading) : capDrop l <:+ l := List.drop_suffix _ _

lemma pruneOld_suffix (now : Int) : ∀ l : List Reading, pruneOld now l <:+ l := by
  intro l
  induction l with
  | nil => exact List.suffix_rfl
  | cons r rs ih =>
    unfold pruneOld
    split
    · exact ih.trans (List.suffix_cons r rs)
    · exact List.suffix_rfl

lemma pruneOld_mem_ge (now : Int) : ∀ l : List Reading,
    List.Pairwise (fun a b => a.timestamp ≤ b.timestamp) l →
    ∀ r ∈ pruneOld now l, now - 2 * 60 * 60 * 1000 ≤ r.timestamp := by
  intro l
  induction l with
  | nil => intro _ r hr; simp [pruneOld] at hr
  | cons x xs ih =>
    intro hp r hr
    unfold pruneOld at hr
    split at hr
    · exact ih hp.of_cons r hr
    · rename_i hx
      push_neg at hx
      rcases List.mem_cons.mp hr with h1 | h2
      · rw [h1]; exact hx
      · exact le_trans hx (List.rel_of_pairwise_cons hp h2)

lemma pruneOld_id (now : Int) (l : List Reading)
    (h : ∀ r ∈ l, ¬(r.timestamp < now - 2 * 60 * 60 * 1000)) :
    pruneOld now l = l := by
  cases l with
  | nil => rfl
  | cons x xs =>
    unfold pruneOld
    rw [if_neg (h x (List.mem_cons_self x xs))]

lemma capDrop_append_single (a : List Reading) (r : Reading) :
    capDrop (capDrop a ++ [r]) = capDrop (a ++ [r]) := by
  by_cases ha : a.length ≤ 500
  · rw [capDrop_of_le ha]
  · push_neg at ha
    have h1 : capDrop a = a.drop (a.length - 500) := rfl
    have h2 : (capDrop a).length = 500 := by
      simp only [capDrop, List.length_drop]
      omega
    show (capDrop a ++ [r]).drop ((capDrop a ++ [r]).length - 500)
        = (a ++ [r]).drop ((a ++ [r]).length - 500)
    have hlen1 : (capDrop a ++ [r]).length - 500 = 1 := by
      rw [List.length_append, h2]
      simp
    have hlen2 : (a ++ [r]).length - 500 = a.length - 500 + 1 := by
      rw [List.length_append]
      simp only [List.length_singleton]
      omega
    rw [hlen1, hlen2]
    rw [List.drop_append_of_le_length (by omega : 1 ≤ (capDrop a).length), h1,
      List.drop_drop, List.drop_append_of_le_length (by omega : a.length - 500 + 1 ≤ a.length)]

lemma foldl_appendAndPrune (now : Int) (l : List Reading) : ∀ h : List Reading,
    h.length ≤ 500 →
    (∀ r ∈ h ++ l, ¬(r.timestamp < now - 2 * 60 * 60 * 1000)) →
    List.foldl (appendAndPrune now) h l = capDrop (h ++ l) := by
  induction l using List.reverseRecOn with
  | nil =>
    intro h hlen _
    rw [List.append_nil, List.foldl_nil, capDrop_of_le hlen]
  | append_singleton l r ih =>
    intro h hlen hall
    rw [List.foldl_append, List.foldl_cons, List.foldl_nil]
    have hIH : List.foldl (appendAndPrune now) h l = capDrop (h ++ l) := by
      refine ih h hlen ?_
      intro x hx
      refine hall x ?_
      rcases List.mem_append.mp hx with h1 | h2
      · exact List.mem_append.mpr (Or.inl h1)
      · exact List.mem_append.mpr (Or.inr (List.mem_append.mpr (Or.inl h2)))
    rw [hIH]
    unfold appendAndPrune pruneHistory
    rw [pruneOld_id]
    · rw [capDrop_append_single, List.append_assoc]
    · intro x hx
      rcases List.mem_append.mp hx with h1 | h2
      · rcases List.mem_append.mp ((capDrop_suffix (h ++ l)).mem h1) with hq1 | hq2
        · exact hall x (List.mem_append.mpr (Or.inl hq1))
        · exact hall x (List.mem_append.mpr (Or.inr (List.mem_append.mpr (Or.inl hq2))))
      · rw [List.mem_singleton.mp h2]
        exact hall r (List.mem_append.mpr (Or.inr (List.mem_append.mpr
          (Or.inr (List.mem_singleton.mpr rfl)))))

/-- The eviction fixture from the spec: 600 readings 1 minute apart
(timestamps i·60000 ms), each at a constant 50% level.  The wall clock
for the run is fixed at instant 0, so none of the readings is older than
the 2-hour horizon and only the 500-entry cap evicts. -/
def readings600 : List Reading := (List.range 600).map fun i : ℕ => ⟨(i * 60000 : Int), 50⟩

/-- The time-horizon eviction fixture: three readings spanning more than
two hours, pruned at wall-clock 10800000 (= 3 h), well under the
500-entry cap. -/
def exPrune : List Reading := [⟨0, 50⟩, ⟨3600000, 50⟩, ⟨9000000, 50⟩]

/-- C7: after an append-and-prune step the continuous-mode window holds at
most 500 entries; on a time-ordered window no surviving entry is older
than 2 hours before the wall clock; eviction is oldest-first (the result
is a suffix of the input); appending 600 readings 1 minute apart leaves
exactly the 500 newest (the 100 oldest evicted); and readings spanning
more than 2 hours are evicted past the horizon even under the cap. -/
theorem claim_C7 :
    (∀ (now : Int) (history : List Reading) (r : Reading),
      (appendAndPrune now history r).length ≤ 500)
    ∧ (∀ (now : Int) (history : List Reading),
        List.Pairwise (fun a b => a.timestamp ≤ b.timestamp) history →
        ∀ r ∈ pruneHistory now history, now - 2 * 60 * 60 * 1000 ≤ r.timestamp)
    ∧ (∀ (now : Int) (history : List Reading), pruneHistory now history <:+ history)
    ∧ List.foldl (appendAndPrune 0) [] readings600 = readings600.drop 100
    ∧ (readings600.drop 100).length = 500
    ∧ pruneHistory 10800000 exPrune = [⟨3600000, 50⟩, ⟨9000000, 50⟩] := by
  refine ⟨?_, ?_, ?_, ?_, ?_, ?_⟩
  · intro now history r
    unfold appendAndPrune pruneHistory
    exact capDrop_length _
  · intro now history hp r hr
    exact pruneOld_mem_ge now history hp r ((capDrop_suffix _).mem hr)
  · intro now history
    exact (capDrop_suffix _).trans (pruneOld_suffix now history)
  · have hfold : List.foldl (appendAndPrune 0) [] readings600 = capDrop ([] ++ readings600) := by
      refine foldl_appendAndPrune 0 readings600 [] (by simp) ?_
      intro x hx
      rw [List.nil_append, readings600] at hx
      obtain ⟨i, hi, hxe⟩ := List.mem_map.mp hx
      subst hxe
      simp only
      have hnn : (0 : Int) ≤ (i : Int) := Int.natCast_nonneg i
      omega
    rw [hfold, List.nil_append]
    have hlen : readings600.length = 600 := by simp [readings600]
    show readings600.drop (readings600.length - 500) = readings600.drop 100
    rw [hlen]
  · simp [readings600]
  · norm_num [pruneHistory, pruneOld, capDrop, exPrune]

/-- Witness for C7: the horizon bound applied at the concrete
time-ordered fixture. -/
theorem claim_C7_witness :
    List.Pairwise (fun a b : Reading => a.timestamp ≤ b.timestamp) exPrune
    ∧ ∀ r ∈ pruneHistory 10800000 exPrune,
        (10800000 : Int) - 2 * 60 * 60 * 1000 ≤ r.timestamp := by
  have hp : List.Pairwise (fun a b : Reading => a.timestamp ≤ b.timestamp) exPrune := by
    norm_num [exPrune, List.pairwise_cons]
  exact ⟨hp, claim_C7.2.1 10800000 exPrune hp⟩

/-- The payload object handed to `AlertManager.addAlert` by the
detection paths (fuel-monitor.js lines 209-217 and 529-539).  The
historical path also passes `timestamp` and `isHistorical` fields; the
live path does not (modelled as `none` / `false` defaults). -/
structure AlertData where
  vehicleId : String
  vehicleName : String
  severity : String
  fuelDrop : ℚ
  previousLevel : ℚ
  currentLevel : ℚ
  duration : Int
  timestamp : Option Int := none
  isHistorical : Bool := false
  location : Option String := none
deriving DecidableEq, Repr

/-- The alert record constructed by `addAlert` (alert-manager lines
628-639).  It is built field-by-field from the payload, with `id` drawn
from the counter, `timestamp` set to `new Date().toISOString()` (the
processing wall clock, modelled as the `now` instant) and `location`
defaulted; the object literal has no `historical`/`isHistorical` field
and does not read the payload's `timestamp`. -/
structure Alert where
  id : Nat
  vehicleId : String
  vehicleName : String
  severity : String
  fuelDrop : ℚ
  previousLevel : ℚ
  currentLevel : ℚ
  duration : Int
  timestamp : Int
  location : String
deriving DecidableEq, Repr

/-- Mutable state of the AlertManager module: the alert list (newest
first), the id counter, and the per-vehicle dedup cache `recentAlerts`
(vehicleId → last accepted wall-clock instant), the JS `Map` modelled as
an association list. -/
structure AlertState where
  alerts : List Alert := []
  alertIdCounter : Nat := 0
  recentAlerts : List (String × Int) := []
deriving DecidableEq, Repr

/-- The initial AlertManager state (lines 581-592). -/
def emptyAlertState : AlertState := {}

/-- `recentAlerts.get(vehicleId)` on the dedup cache. -/
def lookupRecent (m : List (String × Int)) (k : String) : Option Int :=
  (m.find? fun p => p.1 == k).map fun p => p.2

/-- `recentAlerts.set(vehicleId, Date.now())`: replace the entry if the
key is present, append otherwise. -/
def setRecent (m : List (String × Int)) (k : String) (v : Int) : List (String × Int) :=
  if m.any fun p => p.1 == k then m.map fun p => if p.1 == k then (k, v) else p
  else m ++ [(k, v)]

/-- `DEDUP_WINDOW_MS = 5 * 60 * 1000` (line 593). -/
def DEDUP_WINDOW_MS : Int := 5 * 60 * 1000

/-- Embedding of `isDuplicate(alertData)` (lines 665-671).  The JS test
is `if (lastAlertTime && (Date.now() - lastAlertTime) < DEDUP_WINDOW_MS)`:
duplicate iff this vehicle has a truthy (non-zero) last-accepted instant
less than 5 wall-clock minutes ago; a stored instant of exactly 0 is
falsy and never deduplicates.  Only `alertData.vehicleId` is consulted;
the payload's own timestamps play no part. -/
def isDuplicate (st : AlertState) (now : Int) (d : AlertData) : Bool :=
  match lookupRecent st.recentAlerts d.vehicleId with
  | some lastAlertTime =>
    lastAlertTime != 0 && decide (now - lastAlertTime < DEDUP_WINDOW_MS)
  | none => false

/-- Embedding of `addAlert(alertData)` (lines 621-660), with the wall
clock (`Date.now()` / `new Date()`) passed as `now`.  Returns the JS
return value (added or deduplicated) and the updated module state. -/
def addAlert (st : AlertState) (now : Int) (d : AlertData) : Bool × AlertState :=
  if isDuplicate st now d then (false, st)
  else
    let newId := st.alertIdCounter + 1
    let a : Alert :=
      { id := newId
        vehicleId := d.vehicleId
        vehicleName := d.vehicleName
        severity := d.severity
        fuelDrop := d.fuelDrop
        previousLevel := d.previousLevel
        currentLevel := d.currentLevel
        duration := d.duration
        timestamp := now
        location := match d.location with
          | some l => if l = "" then "Unknown" else l
          | none => "Unknown" }
    (true, { alerts := a :: st.alerts
             alertIdCounter := newId
             recentAlerts := setRecent st.recentAlerts d.vehicleId now })

lemma setRecent_cons_ne (p : String × Int) (ps : List (String × Int)) (k : String) (v : Int)
    (hp : (p.1 == k) = false) : setRecent (p :: ps) k v = p :: setRecent ps k v := by
  unfold setRecent
  have hpne : ¬ p.1 = k := by simpa using hp
  by_cases hany : (ps.any fun q => q.1 == k) = true
  · simp [List.any_cons, hp, hpne, hany]
  · simp only [Bool.not_eq_true] at hany
    simp [List.any_cons, hp, hpne, hany]

lemma lookupRecent_setRecent (m : List (String × Int)) (k : String) (v : Int) :
    lookupRecent (setRecent m k v) k = some v := by
  induction m with
  | nil => simp [setRecent, lookupRecent]
  | cons p ps ih =>
    by_cases hp : (p.1 == k) = true
    · have hpe : p.1 = k := by simpa using hp
      unfold setRecent
      simp only [List.any_cons, hp, Bool.true_or, if_true]
      unfold lookupRecent
      simp [List.find?_cons, hp, hpe]
    · have hp' : (p.1 == k) = false := by
        simpa using hp
      rw [setRecent_cons_ne p ps k v hp']
      unfold lookupRecent at ih ⊢
      simp [List.find?_cons, hp', ih]

/-- A qualifying alert payload used in the dedup fixtures. -/
def exAlert : AlertData :=
  { vehicleId := "v1", vehicleName := "Truck 1", severity := "high",
    fuelDrop := 20, previousLevel := 75, currentLevel := 55, duration := 10 }

/-- C6 as stated is false on the code: the JS guard
`if (lastAlertTime && ...)` treats a stored last-accepted instant of
exactly 0 as falsy, so after an alert accepted at wall clock 0 a second
qualifying alert only 2 minutes later — well within the 5-minute
cooldown — is accepted (returns true and mutates state, bumping the id
counter to 2) instead of being rejected. -/
theorem claim_C6_counterexample :
    (addAlert emptyAlertState 0 exAlert).1 = true
    ∧ lookupRecent (addAlert emptyAlertState 0 exAlert).2.recentAlerts exAlert.vehicleId
        = some 0
    ∧ (120000 : Int) - 0 < DEDUP_WINDOW_MS
    ∧ (addAlert (addAlert emptyAlertState 0 exAlert).2 120000 exAlert).1 = true
    ∧ (addAlert (addAlert emptyAlertState 0 exAlert).2 120000 exAlert).2.alertIdCounter = 2
    ∧ (addAlert emptyAlertState 0 exAlert).2.alertIdCounter = 1 := by
  norm_num [addAlert, isDuplicate, lookupRecent, setRecent, emptyAlertState, exAlert,
    DEDUP_WINDOW_MS]

/-- C6 (amended): the dedup gate enforces the 5-minute wall-clock
cooldown per vehicle whenever the stored last-accepted instant is truthy
(non-zero): within the cooldown the add then returns false and leaves
the whole state (alert list, per-vehicle record, id counter) unchanged;
a stored instant of exactly 0 is falsy and never deduplicates; outside
the cooldown, or with no prior alert, the add returns true, records the
new instant for the vehicle and grows the list by one with the next id.
Two qualifying events 2 minutes apart at a non-zero wall clock yield one
accept and one reject; 6 minutes apart both are accepted. -/
theorem claim_C6 :
    (∀ (st : AlertState) (now : Int) (d : AlertData) (t : Int),
      lookupRecent st.recentAlerts d.vehicleId = some t →
      t ≠ 0 →
      now - t < DEDUP_WINDOW_MS →
      addAlert st now d = (false, st))
    ∧ (∀ (st : AlertState) (now : Int) (d : AlertData),
        isDuplicate st now d = false →
        (addAlert st now d).1 = true
        ∧ lookupRecent (addAlert st now d).2.recentAlerts d.vehicleId = some now
        ∧ (addAlert st now d).2.alertIdCounter = st.alertIdCounter + 1
        ∧ ∃ a, (addAlert st now d).2.alerts = a :: st.alerts)
    ∧ (∀ (st : AlertState) (now : Int) (d : AlertData) (t : Int),
        lookupRecent st.recentAlerts d.vehicleId = some t →
        DEDUP_WINDOW_MS ≤ now - t →
        isDuplicate st now d = false)
    ∧ (∀ (st : AlertState) (now : Int) (d : AlertData),
        lookupRecent st.recentAlerts d.vehicleId = none →
        isDuplicate st now d = false)
    ∧ (∀ (st : AlertState) (now : Int) (d : AlertData),
        lookupRecent st.recentAlerts d.vehicleId = some 0 →
        isDuplicate st now d = false)
    ∧ (addAlert emptyAlertState 1000000 exAlert).1 = true
    ∧ addAlert (addAlert emptyAlertState 1000000 exAlert).2 1120000 exAlert
        = (false, (addAlert emptyAlertState 1000000 exAlert).2)
    ∧ (addAlert (addAlert emptyAlertState 1000000 exAlert).2 1360000 exAlert).1 = true := by
  refine ⟨?_, ?_, ?_, ?_, ?_, ?_, ?_, ?_⟩
  · intro st now d t h1 hne h2
    have hdup : isDuplicate st now d = true := by
      simp [isDuplicate, h1, hne, h2]
    simp [addAlert, hdup]
  · intro st now d h
    refine ⟨by simp [addAlert, h], ?_, by simp [addAlert, h], ?_⟩
    · simp [addAlert, h, lookupRecent_setRecent]
    · simp [addAlert, h]
  · intro st now d t h1 h2
    rcases eq_or_ne t 0 with rfl | hne
    · simp [isDuplicate, h1]
    · simp [isDuplicate, h1, hne, DEDUP_WINDOW_MS] at h2 ⊢
      omega
  · intro st now d h
    simp [isDuplicate, h]
  · intro st now d h
    simp [isDuplicate, h]
  · norm_num [addAlert, isDuplicate, lookupRecent, setRecent, emptyAlertState, exAlert,
      DEDUP_WINDOW_MS]
  · norm_num [addAlert, isDuplicate, lookupRecent, setRecent, emptyAlertState, exAlert,
      DEDUP_WINDOW_MS]
  · norm_num [addAlert, isDuplicate, lookupRecent, setRecent, emptyAlertState, exAlert,
      DEDUP_WINDOW_MS]

/-- Witness for C6: the cooldown rejection and the outside-cooldown
acceptance applied at the concrete non-zero-clock 2-minute / 6-minute
fixture. -/
theorem claim_C6_witness :
    addAlert (addAlert emptyAlertState 1000000 exAlert).2 1120000 exAlert
      = (false, (addAlert emptyAlertState 1000000 exAlert).2)
    ∧ isDuplicate (addAlert emptyAlertState 1000000 exAlert).2 1360000 exAlert = false := by
  have hlook : lookupRecent (addAlert emptyAlertState 1000000 exAlert).2.recentAlerts
      exAlert.vehicleId = some 1000000 := by
    norm_num [addAlert, isDuplicate, lookupRecent, setRecent, emptyAlertState, exAlert]
  refine ⟨claim_C6.1 _ 1120000 exAlert 1000000 hlook (by norm_num)
      (by norm_num [DEDUP_WINDOW_MS]),
    claim_C6.2.2.1 _ 1360000 exAlert 1000000 hlook (by norm_num [DEDUP_WINDOW_MS])⟩

/-- A historical drop payload carrying the reading's own timestamp t0. -/
def histDropEarly : AlertData := { exAlert with timestamp := some 0, isHistorical := true }

/-- A historical drop payload whose reading timestamp is 3 hours later. -/
def histDropLate : AlertData := { exAlert with timestamp := some 10800000, isHistorical := true }

/-- A historical drop payload whose reading timestamp is 2 minutes after t0. -/
def histDropPlus2m : AlertData := { exAlert with timestamp := some 120000, isHistorical := true }

/-- C10: the dedup cooldown is measured on the processing wall clock
(`Date.now()` at each add), not on the payload's own timestamps: the
result of `addAlert` is entirely independent of the payload `timestamp`
and `isHistorical` fields; two historical drops 3 hours apart by their
own timestamps are still deduplicated when processed 2 real minutes
apart; and two drops 2 historical minutes apart are both accepted when
processed 6 real minutes apart. -/
theorem claim_C10 :
    (∀ (st : AlertState) (now : Int) (d : AlertData) (t1 t2 : Option Int) (b1 b2 : Bool),
      addAlert st now { d with timestamp := t1, isHistorical := b1 }
        = addAlert st now { d with timestamp := t2, isHistorical := b2 })
    ∧ (addAlert emptyAlertState 1000000 histDropEarly).1 = true
    ∧ (addAlert (addAlert emptyAlertState 1000000 histDropEarly).2 1120000 histDropLate).1
        = false
    ∧ (addAlert (addAlert emptyAlertState 1000000 histDropEarly).2 1360000 histDropPlus2m).1
        = true := by
  refine ⟨?_, ?_, ?_, ?_⟩
  · intro st now d t1 t2 b1 b2
    rfl
  · norm_num [addAlert, isDuplicate, lookupRecent, setRecent, emptyAlertState, exAlert,
      histDropEarly, DEDUP_WINDOW_MS]
  · norm_num [addAlert, isDuplicate, lookupRecent, setRecent, emptyAlertState, exAlert,
      histDropEarly, histDropLate, DEDUP_WINDOW_MS]
  · norm_num [addAlert, isDuplicate, lookupRecent, setRecent, emptyAlertState, exAlert,
      histDropEarly, histDropPlus2m, DEDUP_WINDOW_MS]

/-- A partial configuration object passed to `updateConfig` (`newConfig`):
absent fields leave the old value under the spread merge. -/
structure ConfigPatch where
  dropThreshold : Option Int := none
  timeWindowMinutes : Option Int := none
  pollIntervalSeconds : Option Int := none
deriving DecidableEq, Repr

/-- State of the FuelMonitor module observable by a configuration update:
the in-memory config, the persisted copy written by `saveConfig`, the
monitoring flag, and the poll timer (current interval plus a generation
counter bumped on every `setInterval` call, so rescheduling is
observable). -/
structure MonitorState where
  config : Config
  storedConfig : Option Config
  isMonitoring : Bool
  timerInterval : Option Int
  timerGeneration : Nat
deriving DecidableEq, Repr

/-- JS truthiness of `newConfig.pollIntervalSeconds` (line 366): a number
is falsy exactly when it is 0 (NaN cannot reach this point through the
validated caller). -/
def truthyOpt : Option Int → Bool
  | none => false
  | some n => n != 0

/-- The spread merge `config = {...config, ...newConfig}` (line 362). -/
def mergeConfig (c : Config) (p : ConfigPatch) : Config :=
  { dropThreshold := p.dropThreshold.getD c.dropThreshold
    timeWindowMinutes := p.timeWindowMinutes.getD c.timeWindowMinutes
    pollIntervalSeconds := p.pollIntervalSeconds.getD c.pollIntervalSeconds }

/-- Embedding of `updateConfig(newConfig)` (fuel-monitor.js lines
361-370): merge, persist via `saveConfig`, and reschedule the poll timer
when monitoring is active and a truthy new poll interval was supplied.
The function itself performs no range validation. -/
def updateConfig (st : MonitorState) (p : ConfigPatch) : MonitorState :=
  let cfg := mergeConfig st.config p
  let st1 := { st with config := cfg, storedConfig := some cfg }
  if st1.isMonitoring && truthyOpt p.pollIntervalSeconds then
    { st1 with timerInterval := some cfg.pollIntervalSeconds
               timerGeneration := st1.timerGeneration + 1 }
  else st1

/-- The `isNaN(x) || x < lo || x > hi` acceptance test of `saveSettings`
(main.js lines 310-323), with `none` standing for `NaN` from `parseInt`:
`true` exactly when the parsed value is a number inside `[lo, hi]`. -/
def validRange (v : Option Int) (lo hi : Int) : Bool :=
  match v with
  | none => false
  | some n => decide (lo ≤ n) && decide (n ≤ hi)

/-- Embedding of `saveSettings` (main.js lines 302-346), restricted to
the engine configuration: validate the three parsed inputs in order and
only then call `FuelMonitor.updateConfig`; on any validation failure
return before touching anything. -/
def saveSettings (st : MonitorState) (threshold timeWindow pollInterval : Option Int) :
    MonitorState :=
  if !(validRange threshold 1 50) then st
  else if !(validRange timeWindow 5 120) then st
  else if !(validRange pollInterval 10 300) then st
  else updateConfig st
    { dropThreshold := threshold, timeWindowMinutes := timeWindow,
      pollIntervalSeconds := pollInterval }

/-- C3: a configuration update whose requested values are out of the
allowed ranges (threshold outside [1,50], window outside [5,120],
interval outside [10,300], or not a number) is rejected before any state
mutation: the whole monitor state — in-memory config, persisted config
and poll timer — is returned unchanged. -/
theorem claim_C3 :
    ∀ (st : MonitorState) (threshold timeWindow pollInterval : Option Int),
      validRange threshold 1 50 = false
        ∨ validRange timeWindow 5 120 = false
        ∨ validRange pollInterval 10 300 = false →
      saveSettings st threshold timeWindow pollInterval = st := by
  intro st t w p h
  rcases h with h | h | h
  · simp [saveSettings, h]
  · cases hv1 : validRange t 1 50 <;> simp [saveSettings, hv1, h]
  · cases hv1 : validRange t 1 50 <;> cases hv2 : validRange w 5 120 <;>
      simp [saveSettings, hv1, hv2, h]

/-- A monitor state with monitoring active, for the C3 witness. -/
def exMonitorState : MonitorState :=
  { config := defaultConfig, storedConfig := none, isMonitoring := true,
    timerInterval := some 30, timerGeneration := 1 }

/-- Witness for C3: an out-of-range threshold (0) leaves a live monitor
state untouched. -/
theorem claim_C3_witness :
    validRange (some 0) 1 50 = false
    ∧ saveSettings exMonitorState (some 0) (some 30) (some 30) = exMonitorState := by
  have hv : validRange (some 0) 1 50 = false := by decide
  exact ⟨hv, claim_C3 exMonitorState (some 0) (some 30) (some 30) (Or.inl hv)⟩

/-- A raw fuel-level `StatusData` entry (`{dateTime, data}`): `data` is
the fractional diagnostic value, multiplied by 100 on ingestion. -/
structure RawPoint where
  dateTime : Int
  data : ℚ
deriving DecidableEq, Repr

/-- A successful `GetFeed` response (`{toVersion, data}`). -/
structure FeedResult where
  toVersion : String
  data : List RawPoint
deriving DecidableEq, Repr

/-- The cursor argument the poll passes to `GetFeed` (lines 126-128): the
token is attached only when truthy (non-null and non-empty). -/
def tokenArg : Option String → Option String
  | none => none
  | some t => if t = "" then none else some t

def isPrefixList : List Char → List Char → Bool
  | [], _ => true
  | _ :: _, [] => false
  | p :: ps, c :: cs => p == c && isPrefixList ps cs

def containsSub (pat : List Char) : List Char → Bool
  | [] => isPrefixList pat []
  | c :: cs => isPrefixList pat (c :: cs) || containsSub pat cs

/-- JS `String.prototype.includes`: case-sensitive substring test. -/
def strIncludes (s pat : String) : Bool := containsSub pat.toList s.toList

/-- Embedding of the cursor handling of `pollForFuelData` (fuel-monitor.js
lines 112-148): the fetch oracle receives the cursor argument; on success
the cursor advances to `result.toVersion` and the delivered readings are
handed on; on failure the batch is empty and the cursor is reset to null
exactly when the error carries a message containing "version". -/
def pollForFuelData (feedToken : Option String)
    (fetch : Option String → Except (Option String) FeedResult) :
    Option String × List RawPoint :=
  match fetch (tokenArg feedToken) with
  | .ok result => (some result.toVersion, result.data)
  | .error msg =>
    match msg with
    | some m => if strIncludes m ("version") then (none, []) else (feedToken, [])
    | none => (feedToken, [])

/-- C8: on a successful poll the cursor advances to the response's new
version marker; a fetch failure whose message indicates a version
conflict resets the cursor to null, so the next poll omits the cursor;
any other failure (including one without a message) leaves the cursor
unchanged for a plain retry. -/
theorem claim_C8 :
    (∀ (tok : Option String) (fetch : Option String → Except (Option String) FeedResult)
        (r : FeedResult),
      fetch (tokenArg tok) = .ok r → (pollForFuelData tok fetch).1 = some r.toVersion)
    ∧ (∀ (tok : Option String) (fetch : Option String → Except (Option String) FeedResult)
        (m : String),
        fetch (tokenArg tok) = .error (some m) → strIncludes m ("version") = true →
        (pollForFuelData tok fetch).1 = none)
    ∧ (∀ (tok : Option String) (fetch : Option String → Except (Option String) FeedResult)
        (m : String),
        fetch (tokenArg tok) = .error (some m) → strIncludes m ("version") = false →
        (pollForFuelData tok fetch).1 = tok)
    ∧ (∀ (tok : Option String) (fetch : Option String → Except (Option String) FeedResult),
        fetch (tokenArg tok) = .error none → (pollForFuelData tok fetch).1 = tok)
    ∧ tokenArg none = none := by
  refine ⟨?_, ?_, ?_, ?_, rfl⟩
  · intro tok fetch r h
    simp [pollForFuelData, h]
  · intro tok fetch m h hm
    simp [pollForFuelData, h, hm]
  · intro tok fetch m h hm
    simp [pollForFuelData, h, hm]
  · intro tok fetch h
    simp [pollForFuelData, h]

/-- Witness for C8 at concrete fetch outcomes: a version-conflict message
resets the cursor, a generic message keeps it. -/
theorem claim_C8_witness :
    (pollForFuelData (some "tok7")
      (fun _ => Except.error (some "feed version mismatch"))).1 = none
    ∧ (pollForFuelData (some "tok7")
        (fun _ => Except.error (some "Network timeout"))).1 = some "tok7" := by
  refine ⟨claim_C8.2.1 (some "tok7") _ ("feed version mismatch") rfl (by decide),
    claim_C8.2.2.1 (some "tok7") _ ("Network timeout") rfl (by decide)⟩

/-- A trip/movement record returned by the `Trip` range query; its
contents are irrelevant to the stationary check, which only asks whether
any exist. -/
structure Trip where
  start : Int
  finish : Int
deriving DecidableEq, Repr

/-- Embedding of `checkVehicleState(deviceId, timestamp)` (fuel-monitor.js
lines 271-317).  The two API calls are oracles taking the query window
`(fromDate, toDate)`; the ignition query yields the `data` values of the
returned StatusData entries in order, so the JS `ignitionData[ignitionData.length - 1]`
is the last element.  Either call throwing is modelled by `Except.error`,
and the surrounding catch returns `true` (fail open). -/
def checkVehicleState (ignQuery : Int → Int → Except String (List Int))
    (tripQuery : Int → Int → Except String (List Trip)) (timestamp : Int) : Bool :=
  let fromDate := timestamp - 5 * 60 * 1000
  match ignQuery fromDate timestamp with
  | .error _ => true
  | .ok ignitionData =>
    let disq : Bool := match ignitionData.getLast? with
      | some v => v != 0
      | none => false
    if disq then false
    else
      match tripQuery fromDate timestamp with
      | .error _ => true
      | .ok trips => trips.isEmpty

/-- C5: the stationary check fails open — if the ignition query throws,
or the trip query throws after a benign ignition answer, the result is
`true` (still alert); and it returns `false` exactly when the window
query `[timestamp − 5 min, timestamp]` succeeds with a non-zero latest
ignition reading, or with a benign ignition answer but at least one trip
record; with no disqualifying evidence it returns `true`. -/
theorem claim_C5 :
    (∀ (ignQuery : Int → Int → Except String (List Int))
        (tripQuery : Int → Int → Except String (List Trip)) (timestamp : Int) (e : String),
      ignQuery (timestamp - 5 * 60 * 1000) timestamp = .error e →
      checkVehicleState ignQuery tripQuery timestamp = true)
    ∧ (∀ (ignQuery : Int → Int → Except String (List Int))
        (tripQuery : Int → Int → Except String (List Trip)) (timestamp : Int)
        (igs : List Int) (e : String),
        ignQuery (timestamp - 5 * 60 * 1000) timestamp = .ok igs →
        (∀ v, igs.getLast? = some v → v = 0) →
        tripQuery (timestamp - 5 * 60 * 1000) timestamp = .error e →
        checkVehicleState ignQuery tripQuery timestamp = true)
    ∧ (∀ (ignQuery : Int → Int → Except String (List Int))
        (tripQuery : Int → Int → Except String (List Trip)) (timestamp : Int),
        checkVehicleState ignQuery tripQuery timestamp = false ↔
          ((∃ igs v, ignQuery (timestamp - 5 * 60 * 1000) timestamp = .ok igs
              ∧ igs.getLast? = some v ∧ v ≠ 0)
            ∨ (∃ igs trips, ignQuery (timestamp - 5 * 60 * 1000) timestamp = .ok igs
                ∧ (∀ v, igs.getLast? = some v → v = 0)
                ∧ tripQuery (timestamp - 5 * 60 * 1000) timestamp = .ok trips
                ∧ trips ≠ []))) := by
  have hw : ∀ t : Int, t - 300000 = t - 5 * 60 * 1000 := by
    intro t
    norm_num
  refine ⟨?_, ?_, ?_⟩
  · intro ignQuery tripQuery timestamp e h
    have h2 : ignQuery (timestamp - 300000) timestamp = Except.error e := by
      rw [hw]
      exact h
    simp [checkVehicleState, h2]
  · intro ignQuery tripQuery timestamp igs e hign hben htrip
    have hign2 : ignQuery (timestamp - 300000) timestamp = Except.ok igs := by
      rw [hw]
      exact hign
    have htrip2 : tripQuery (timestamp - 300000) timestamp = Except.error e := by
      rw [hw]
      exact htrip
    cases hlast : igs.getLast? with
    | none => simp [checkVehicleState, hign2, htrip2, hlast]
    | some v =>
      have hv0 : v = 0 := hben v hlast
      subst hv0
      simp [checkVehicleState, hign2, htrip2, hlast]
  · intro ignQuery tripQuery timestamp
    constructor
    · intro hres
      simp only [checkVehicleState] at hres
      cases hign : ignQuery (timestamp - 5 * 60 * 1000) timestamp with
      | error e =>
        rw [hign] at hres
        simp at hres
      | ok igs =>
        rw [hign] at hres
        dsimp only at hres
        cases hlast : igs.getLast? with
        | none =>
          rw [hlast] at hres
          rw [if_neg (by simp)] at hres
          cases htr : tripQuery (timestamp - 5 * 60 * 1000) timestamp with
          | error e =>
            rw [htr] at hres
            simp at hres
          | ok trips =>
            rw [htr] at hres
            refine Or.inr ⟨igs, trips, rfl, ?_, rfl, ?_⟩
            · intro v hv
              rw [hlast] at hv
              exact absurd hv (by simp)
            · simpa using hres
        | some v =>
          rw [hlast] at hres
          by_cases hv : v = 0
          · subst hv
            rw [if_neg (by simp)] at hres
            cases htr : tripQuery (timestamp - 5 * 60 * 1000) timestamp with
            | error e =>
              rw [htr] at hres
              simp at hres
            | ok trips =>
              rw [htr] at hres
              refine Or.inr ⟨igs, trips, rfl, ?_, rfl, ?_⟩
              · intro w hwl
                rw [hlast] at hwl
                injection hwl with hwl
                exact hwl.symm
              · simpa using hres
          · exact Or.inl ⟨igs, v, rfl, hlast, hv⟩
    · intro hcase
      rcases hcase with ⟨igs, v, hign, hlast, hv⟩ | ⟨igs, trips, hign, hben, htr, htne⟩
      · have hign2 : ignQuery (timestamp - 300000) timestamp = Except.ok igs := by
          rw [hw]
          exact hign
        simp [checkVehicleState, hign2, hlast, hv]
      · have hign2 : ignQuery (timestamp - 300000) timestamp = Except.ok igs := by
          rw [hw]
          exact hign
        have htr2 : tripQuery (timestamp - 300000) timestamp = Except.ok trips := by
          rw [hw]
          exact htr
        cases hlast : igs.getLast? with
        | none => simp [checkVehicleState, hign2, htr2, hlast, htne]
        | some w =>
          have hw0 : w = 0 := hben w hlast
          subst hw0
          simp [checkVehicleState, hign2, htr2, hlast, htne]

/-- Witness for C5: a throwing ignition query fails open at a concrete
timestamp, and a non-zero latest ignition reading suppresses the alert. -/
theorem claim_C5_witness :
    checkVehicleState (fun _ _ => Except.error ("socket closed"))
      (fun _ _ => Except.ok []) 900000 = true
    ∧ checkVehicleState (fun _ _ => Except.ok [0, 1])
        (fun _ _ => Except.error ("socket closed")) 900000 = false := by
  refine ⟨claim_C5.1 _ _ 900000 ("socket closed") rfl, ?_⟩
  exact (claim_C5.2.2 _ _ 900000).mpr (Or.inl ⟨[0, 1], 1, rfl, by decide, by decide⟩)

/-- A vehicle from the registry cache (`{id, name, serialNumber}`),
restricted to the fields the analysis reads. -/
structure Vehicle where
  id : String
  name : String
deriving DecidableEq, Repr

def insertByTime (p : RawPoint) : List RawPoint → List RawPoint
  | [] => [p]
  | q :: qs => if p.dateTime < q.dateTime then p :: q :: qs else q :: insertByTime p qs

/-- The ascending stable sort
`fuelData.sort((a, b) => new Date(a.dateTime) - new Date(b.dateTime))`
of `analyzeVehicleHistory` (fuel-monitor.js line 507). -/
def sortByTime : List RawPoint → List RawPoint
  | [] => []
  | p :: ps => insertByTime p (sortByTime ps)

/-- The per-reading prune of the historical replay (lines 549-552): shift
while the head is more than `timeWindowMinutes × 2` older than the
current reading; like the JS `while`, it stops at the first head that is
recent enough. -/
def pruneHist2 (cfg : Config) (cutTs : Int) : List Reading → List Reading
  | [] => []
  | r :: rs =>
    if cutTs - r.timestamp > cfg.timeWindowMinutes * 2 * 60 * 1000 then
      pruneHist2 cfg cutTs rs
    else r :: rs

/-- The reading-by-reading replay loop of `analyzeVehicleHistory`
(lines 512-553): detect against the locally-scoped window, verify the
vehicle state at the reading's timestamp, classify, hand the alert
payload (tagged `isHistorical` and carrying the reading's own timestamp)
to `AlertManager.addAlert`, then append the reading and prune the local
window.  As in the source, `alertCount++` runs whether or not `addAlert`
accepted the alert. -/
def historyLoop (cfg : Config) (vehicle : Vehicle) (stationary : Int → Bool) (now : Int) :
    List RawPoint → List Reading → Nat → AlertState → Nat × AlertState
  | [], _, alertCount, st => (alertCount, st)
  | p :: ps, history, alertCount, st =>
    let currentPoint : Reading := ⟨p.dateTime, p.data * 100⟩
    let next :=
      match detectSuspiciousDrop cfg history currentPoint with
      | none => (alertCount, st)
      | some det =>
        if stationary currentPoint.timestamp then
          let sev := determineSeverity det.dropPercent det.durationMinutes
          let res := addAlert st now
            { vehicleId := vehicle.id
              vehicleName := vehicle.name
              severity := sev
              fuelDrop := det.dropPercent
              previousLevel := det.previousLevel
              currentLevel := det.currentLevel
              duration := round det.durationMinutes
              timestamp := some currentPoint.timestamp
              isHistorical := true }
          (alertCount + 1, res.2)
        else (alertCount, st)
    historyLoop cfg vehicle stationary now ps
      (pruneHist2 cfg currentPoint.timestamp (history ++ [currentPoint])) next.1 next.2

/-- Embedding of `analyzeVehicleHistory(vehicle, fromDate, toDate)`
(lines 487-560), the fuel-level range query passed as an oracle outcome
and the processing wall clock as `now`.  A fetch failure is caught and
yields 0 alerts with the alert state untouched; fewer than two readings
also yield 0. -/
def analyzeVehicleHistory (cfg : Config) (vehicle : Vehicle)
    (fetchResult : Except String (List RawPoint)) (stationary : Int → Bool) (now : Int)
    (st : AlertState) : Nat × AlertState :=
  match fetchResult with
  | .error _ => (0, st)
  | .ok fuelData =>
    if fuelData.length < 2 then (0, st)
    else historyLoop cfg vehicle stationary now (sortByTime fuelData) [] 0 st

/-- `Math.round((processed / vehicles.length) * 100)` (line 460) on exact
rationals: `⌊100·p/n + 1/2⌋` as natural division. -/
def jsRound (processed total : Nat) : Nat := (200 * processed + total) / (2 * total)

/-- The per-vehicle loop of `analyzeHistoricalData` (lines 453-466),
collecting the `(message, percent)` progress invocations in order. -/
def analyzeLoop (cfg : Config) (fetch : Vehicle → Except String (List RawPoint))
    (stationary : Vehicle → Int → Bool) (now : Int) (total : Nat) :
    List Vehicle → Nat → Nat → AlertState → Nat × List (String × Nat) × AlertState
  | [], _, totalAlerts, st => (totalAlerts, [], st)
  | v :: vs, processed, totalAlerts, st =>
    let res := analyzeVehicleHistory cfg v (fetch v) (stationary v) now st
    let processed2 := processed + 1
    let ev := ("Analyzed " ++ v.name ++ " (" ++ toString processed2 ++ "/"
        ++ toString total ++ ")", jsRound processed2 total)
    let rest := analyzeLoop cfg fetch stationary now total vs processed2
      (totalAlerts + res.1) res.2
    (rest.1, ev :: rest.2.1, rest.2.2)

/-- Embedding of `analyzeHistoricalData(fromDate, toDate, progressCallback)`
(lines 437-478) with the vehicle registry already loaded: returns the
total alert count, the ordered list of progress-callback invocations
(message, percent), and the final alert state.  The callback fires once
before the loop at 0, once after each vehicle at the rounded fraction,
and once after the loop at 100. -/
def analyzeHistoricalData (cfg : Config) (vehicles : List Vehicle)
    (fetch : Vehicle → Except String (List RawPoint)) (stationary : Vehicle → Int → Bool)
    (now : Int) (st : AlertState) : Nat × List (String × Nat) × AlertState :=
  let res := analyzeLoop cfg fetch stationary now vehicles.length vehicles 0 0 st
  (res.1,
    ("Analyzing " ++ toString vehicles.length ++ " vehicles...", 0)
      :: res.2.1
      ++ [("Analysis complete. Found " ++ toString res.1 ++ " potential theft events.", 100)],
    res.2.2)

lemma analyzeLoop_events_length (cfg : Config) (fetch : Vehicle → Except String (List RawPoint))
    (stationary : Vehicle → Int → Bool) (now : Int) (total : Nat) :
    ∀ (vs : List Vehicle) (processed totalAlerts : Nat) (st : AlertState),
      (analyzeLoop cfg fetch stationary now total vs processed totalAlerts st).2.1.length
        = vs.length := by
  intro vs
  induction vs with
  | nil => intro processed totalAlerts st; rfl
  | cons v rest ih =>
    intro processed totalAlerts st
    unfold analyzeLoop
    simp [ih]

lemma analyzeHistoricalData_events_length (cfg : Config) (vehicles : List Vehicle)
    (fetch : Vehicle → Except String (List RawPoint)) (stationary : Vehicle → Int → Bool)
    (now : Int) (st : AlertState) :
    (analyzeHistoricalData cfg vehicles fetch stationary now st).2.1.length
      = vehicles.length + 2 := by
  unfold analyzeHistoricalData
  simp [analyzeLoop_events_length]

/-- Two-vehicle fixture: vehicle A produces exactly one qualifying drop. -/
def vehicleA : Vehicle := ⟨"vA", "Truck A"⟩

/-- Two-vehicle fixture: vehicle B produces no qualifying drop. -/
def vehicleB : Vehicle := ⟨"vB", "Van B"⟩

/-- The range-query oracle of the fixture: vehicle A's fuel level falls
from 80% to 55% in 10 minutes (one qualifying drop); vehicle B's stays
at 80%. -/
def fetchAB (v : Vehicle) : Except String (List RawPoint) :=
  if v.id = "vA" then Except.ok [⟨0, 0.8⟩, ⟨600000, 0.55⟩]
  else Except.ok [⟨0, 0.8⟩, ⟨600000, 0.8⟩]

/-- C4 as stated is false on the code: on the two-vehicle fixture the
batch run does return 1, but the progress callback is invoked four
times (start, one per vehicle, completion), not exactly twice. -/
theorem claim_C4_counterexample :
    (analyzeVehicleHistory defaultConfig vehicleA (fetchAB vehicleA) (fun _ => true) 9999
        emptyAlertState).1 = 1
    ∧ (analyzeVehicleHistory defaultConfig vehicleB (fetchAB vehicleB) (fun _ => true) 9999
        emptyAlertState).1 = 0
    ∧ (analyzeHistoricalData defaultConfig [vehicleA, vehicleB] fetchAB (fun _ _ => true) 9999
        emptyAlertState).1 = 1
    ∧ ¬((analyzeHistoricalData defaultConfig [vehicleA, vehicleB] fetchAB (fun _ _ => true) 9999
        emptyAlertState).2.1.length = 2) := by
  have hfA : fetchAB ⟨"vA", "Truck A"⟩ = Except.ok [⟨0, 0.8⟩, ⟨600000, 0.55⟩] := by
    simp [fetchAB]
  have hfB : fetchAB ⟨"vB", "Van B"⟩ = Except.ok [⟨0, 0.8⟩, ⟨600000, 0.8⟩] := by
    simp [fetchAB]
  refine ⟨?_, ?_, ?_, ?_⟩
  · norm_num [analyzeVehicleHistory, historyLoop, sortByTime, insertByTime, pruneHist2,
      detectSuspiciousDrop, recentOf, detectCore, maxStep, determineSeverity, addAlert,
      isDuplicate, lookupRecent, setRecent, emptyAlertState, defaultConfig, vehicleA, hfA]
  · norm_num [analyzeVehicleHistory, historyLoop, sortByTime, insertByTime, pruneHist2,
      detectSuspiciousDrop, recentOf, detectCore, maxStep, determineSeverity, addAlert,
      isDuplicate, lookupRecent, setRecent, emptyAlertState, defaultConfig, vehicleB, hfB]
  · norm_num [analyzeHistoricalData, analyzeLoop, analyzeVehicleHistory, historyLoop,
      sortByTime, insertByTime, pruneHist2, detectSuspiciousDrop, recentOf, detectCore,
      maxStep, determineSeverity, addAlert, isDuplicate, lookupRecent, setRecent,
      emptyAlertState, defaultConfig, vehicleA, vehicleB, hfA, hfB, jsRound]
  · rw [analyzeHistoricalData_events_length]
    norm_num

/-- C4 (amended): on the two-vehicle fixture the batch run returns 1 and
the progress callback is invoked exactly four times — once at the start
with percent 0, once after each vehicle with
percent = round(processed/total·100) (50 then 100), and once at
completion with percent 100; in general the callback fires
`vehicles.length + 2` times. -/
theorem claim_C4 :
    (analyzeHistoricalData defaultConfig [vehicleA, vehicleB] fetchAB (fun _ _ => true) 9999
        emptyAlertState).1 = 1
    ∧ ((analyzeHistoricalData defaultConfig [vehicleA, vehicleB] fetchAB (fun _ _ => true) 9999
        emptyAlertState).2.1.map Prod.snd) = [0, 50, 100, 100]
    ∧ (analyzeHistoricalData defaultConfig [vehicleA, vehicleB] fetchAB (fun _ _ => true) 9999
        emptyAlertState).2.1.length = 4
    ∧ jsRound 1 2 = 50 ∧ jsRound 2 2 = 100
    ∧ (∀ (cfg : Config) (vehicles : List Vehicle)
        (fetch : Vehicle → Except String (List RawPoint))
        (stationary : Vehicle → Int → Bool) (now : Int) (st : AlertState),
        (analyzeHistoricalData cfg vehicles fetch stationary now st).2.1.length
          = vehicles.length + 2) := by
  have hfA : fetchAB ⟨"vA", "Truck A"⟩ = Except.ok [⟨0, 0.8⟩, ⟨600000, 0.55⟩] := by
    simp [fetchAB]
  have hfB : fetchAB ⟨"vB", "Van B"⟩ = Except.ok [⟨0, 0.8⟩, ⟨600000, 0.8⟩] := by
    simp [fetchAB]
  refine ⟨claim_C4_counterexample.2.2.1, ?_, ?_, by norm_num [jsRound], by norm_num [jsRound], ?_⟩
  · norm_num [analyzeHistoricalData, analyzeLoop, analyzeVehicleHistory, historyLoop,
      sortByTime, insertByTime, pruneHist2, detectSuspiciousDrop, recentOf, detectCore,
      maxStep, determineSeverity, addAlert, isDuplicate, lookupRecent, setRecent,
      emptyAlertState, defaultConfig, vehicleA, vehicleB, hfA, hfB, jsRound]
  · rw [analyzeHistoricalData_events_length]
    rfl
  · exact analyzeHistoricalData_events_length

/-- C2 is violated by the code: during the historical batch replay of
vehicle A (one drop at reading timestamp 600000, analysis wall clock
9999), the payload handed to `addAlert` carries the reading's own
timestamp and the historical tag, but the alert record the sink
constructs takes its `timestamp` from `new Date()` (the wall clock 9999,
not 600000) and has no historical field at all — `addAlert` drops both
payload fields. -/
theorem claim_C2 :
    (analyzeVehicleHistory defaultConfig vehicleA (fetchAB vehicleA) (fun _ => true) 9999
        emptyAlertState).2.alerts
      = [{ id := 1, vehicleId := "vA", vehicleName := "Truck A", severity := "high",
           fuelDrop := 25, previousLevel := 80, currentLevel := 55, duration := 10,
           timestamp := 9999, location := "Unknown" }]
    ∧ detectSuspiciousDrop defaultConfig [⟨0, 80⟩] ⟨600000, 55⟩ = some ⟨25, 80, 55, 10, 0⟩
    ∧ (9999 : Int) ≠ 600000 := by
  have hfA : fetchAB ⟨"vA", "Truck A"⟩ = Except.ok [⟨0, 0.8⟩, ⟨600000, 0.55⟩] := by
    simp [fetchAB]
  refine ⟨?_, ?_, by norm_num⟩
  · norm_num [analyzeVehicleHistory, historyLoop, sortByTime, insertByTime, pruneHist2,
      detectSuspiciousDrop, recentOf, detectCore, maxStep, determineSeverity, addAlert,
      isDuplicate, lookupRecent, setRecent, emptyAlertState, defaultConfig, vehicleA, hfA]
  · norm_num [detectSuspiciousDrop, recentOf, detectCore, maxStep, defaultConfig]
